import Mathlib

/-!
Verification of the build/release workflow synthesis logic of the
node-project generator (src/src/node-project.ts).

The TypeScript source is shallowly embedded: JS object maps become
association lists, optional fields become `Option`, JS truthiness is made
explicit at each use site (`undefined`/`""`/`false` are falsy, arrays and
objects are truthy), and the throwing constructor becomes a function
`constructNodeProject` returning the collaborator state accumulated so far
together with an optional error message, from which the caller-visible
`Except` view (`construct`) is derived.  External collaborators whose code
is not part of this repository slice (NodePackage, GitHub component, Jest)
enter as an explicit `Collab` input record.
-/

namespace Projen

/-- Modelled from the spec: the package-manager adapter exposes a chosen
package manager, one of three enumerated values (node-package module is
outside this source slice; node-project.ts switches over NPM/YARN/PNPM). -/
inductive NodePackageManager where
  | NPM
  | YARN
  | PNPM
deriving DecidableEq

/-- Modelled from the spec: task-invocation mode of the package-manager
adapter, one of two enumerated values (direct tool invocation vs package
manager script invocation); node-project.ts switches over PROJEN/SHELL. -/
inductive NpmTaskExecution where
  | PROJEN
  | SHELL
deriving DecidableEq

/-- Permission levels used for workflow jobs; node-project.ts uses
JobPermission.WRITE (workflows-model module is outside this slice). -/
inductive JobPermission where
  | READ
  | WRITE
  | NONE
deriving DecidableEq

/-- The coverage-relevant part of the Jest collaborator configuration:
the job builder reads `this.jest?.config.coverageDirectory`. -/
structure JestConfig where
  coverageDirectory : String
deriving DecidableEq

/-- Modelled from the spec: external collaborator surface consumed by the
constructor and the job builder (package manifest handler fields, GitHub
component presence, mergify presence, and the configuration the Jest
collaborator reports when it is enabled). -/
structure Collab where
  packageName : String
  packageManager : NodePackageManager := NodePackageManager.YARN
  npmTaskExecution : NpmTaskExecution := NpmTaskExecution.PROJEN
  projenCommand : String := "npx projen"
  installCommand : String := "yarn install --check-files --frozen-lockfile"
  minNodeVersion : Option String := none
  license : Option String := none
  github : Bool := true
  mergify : Bool := true
  jestConfig : Option JestConfig := some { coverageDirectory := "coverage" }
deriving DecidableEq

/-- A workflow step descriptor: `\x7b name, id?, if?, run? | uses?, with?, env? \x7d`. -/
structure Step where
  name : Option String := none
  id : Option String := none
  stepIf : Option String := none
  uses : Option String := none
  run : Option String := none
  stepWith : List (String × String) := []
  env : List (String × String) := []
deriving DecidableEq

/-- One CI job: runtime image, environment map, permission map, optional
condition, ordered step list (workflows-model Job, as populated by
createBuildWorkflow). -/
structure Job where
  runsOn : String
  env : List (String × String)
  permissions : List (String × JobPermission)
  condition : Option String := none
  steps : List Step
  container : Option String := none
deriving DecidableEq

/-- A workflow document: trigger event names and named jobs. -/
structure Workflow where
  name : String
  triggers : List String
  jobs : List (String × Job)
deriving DecidableEq

/-- NodeBuildWorkflowOptions (src/src/node-project.ts lines 1018-1079).
The trigger filter is represented by the list of event-category keys that
are bound to truthy filter objects. -/
structure NodeBuildWorkflowOptions where
  jobId : String
  image : Option String := none
  condition : Option String := none
  trigger : Option (List String) := none
  codeCov : Option Bool := none
  codeCovTokenSecret : Option String := none
  preBuildSteps : Option (List Step) := none
  preCheckoutSteps : Option (List Step) := none
  postSteps : Option (List Step) := none
  checkoutWith : Option (List (String × String)) := none
  antitamperDisabled : Option Bool := none
  env : Option (List (String × String)) := none
  permissions : List (String × JobPermission)
deriving DecidableEq

/-- Context the job builder reads from the project instance:
`this.github` presence, `this.antitamper`, `this.nodeVersion`,
`this.package.installCommand`, the build-task command, `this.jest?.config`. -/
structure BuildCtx where
  github : Bool
  antitamper : Bool
  nodeVersion : Option String
  installCommand : String
  buildCommand : String
  jestConfig : Option JestConfig
deriving DecidableEq

/-- UpgradeDependencies workflow options as passed at the call sites in
node-project.ts (schedule as a cron expression list, secret name, labels). -/
structure UpgradeDependenciesWorkflowOptions where
  schedule : Option (List String) := none
  secret : Option String := none
  labels : Option (List String) := none
deriving DecidableEq

/-- UpgradeDependencies options as passed at the call sites in
node-project.ts (`include` is named `includeDeps` here). -/
structure UpgradeDependenciesOptions where
  includeDeps : Option (List String) := none
  taskName : Option String := none
  pullRequestTitle : Option String := none
  ignoreProjen : Option Bool := none
  workflow : Option Bool := none
  workflowOptions : Option UpgradeDependenciesWorkflowOptions := none
deriving DecidableEq

/-- DependenciesUpgradeMechanism (src/src/node-project.ts lines 1089-1127):
a tagged choice of NONE, dependabot (with its ignoreProjen option) or a
custom github workflow (with its options). -/
inductive DependenciesUpgradeMechanism where
  | NONE
  | dependabot (ignoreProjen : Option Bool)
  | githubWorkflow (opts : UpgradeDependenciesOptions)
deriving DecidableEq

/-- ignoresProjen getter (lines 1118-1122): defaults to true; the NONE
variant is constructed with an explicit true. -/
def DependenciesUpgradeMechanism.ignoresProjen : DependenciesUpgradeMechanism → Bool
  | .NONE => true
  | .dependabot ip => ip.getD true
  | .githubWorkflow g => g.ignoreProjen.getD true

/-- NodeProjectOptions fields read by the constructor logic under
verification (lines 19-248 plus inherited release options).  `parent`
models `this.parent` being defined (subproject). -/
structure NodeProjectOptions where
  parent : Bool := false
  defaultReleaseBranch : Option String := none
  buildWorkflow : Option Bool := none
  mutableBuild : Option Bool := none
  antitamper : Option Bool := none
  codeCov : Option Bool := none
  codeCovTokenSecret : Option String := none
  releaseWorkflow : Option Bool := none
  releaseToNpm : Option Bool := none
  releaseBranches : Option (List String) := none
  releaseEveryCommit : Option Bool := none
  releaseSchedule : Option String := none
  workflowNodeVersion : Option String := none
  workflowContainerImage : Option String := none
  dependabot : Option Bool := none
  depsUpgrade : Option DependenciesUpgradeMechanism := none
  mergifyAutoMergeLabel : Option String := none
  projenUpgradeSecret : Option String := none
  projenUpgradeAutoMerge : Option Bool := none
  projenUpgradeSchedule : Option (List String) := none
  projenDuringBuild : Option Bool := none
  projenDevDependency : Option Bool := none
  projenVersion : Option String := none
  npmignoreEnabled : Option Bool := none
  npmignore : Option (List String) := none
  gitignore : Option (List String) := none
  jest : Option Bool := none
  pullRequestTemplate : Option Bool := none
  projenrcJs : Option Bool := none
deriving DecidableEq

/-- Error message of line 473 (npmignore entries without an .npmignore file). -/
def msgNpmignore : String :=
  ".npmignore is not defined for an APP project type. Add \"npmIgnore: true\" to override this"

/-- Error message of line 496 (missing defaultReleaseBranch). -/
def msgDefaultReleaseBranch : String :=
  "\"defaultReleaseBranch\" is temporarily a required option while we migrate its default value from \"master\" to \"main\""

/-- Error message of line 900 (no GitHub collaborator on the project). -/
def msgNoGithub : String := "no github support"

/-- Error message of line 906 (disallowed issue_comment trigger). -/
def msgIssueComment : String :=
  "\"issue_comment\" should not be used as a trigger due to a security issue"

/-- Error message of line 611. -/
def msgReleaseToNpm : String := "\"releaseToNpm\" is not supported for APP projects"

/-- Error message of line 615. -/
def msgReleaseBranches : String := "\"releaseBranches\" is not supported for APP projects"

/-- Error message of line 619. -/
def msgReleaseEveryCommit : String := "\"releaseEveryCommit\" is not supported for APP projects"

/-- Error message of line 623. -/
def msgReleaseSchedule : String := "\"releaseSchedule\" is not supported for APP projects"

/-- Error message of line 636. -/
def msgDependabotConflict : String :=
  "\x27dependabot\x27 cannot be configured together with \x27depsUpgrade\x27"

/-- Checkout step (lines 939-943): `with` is spread in only when
checkoutWith was supplied. -/
def checkoutStep (opts : NodeBuildWorkflowOptions) : Step :=
  { name := some "Checkout"
    uses := some "actions/checkout@v2"
    stepWith := opts.checkoutWith.getD [] }

/-- Git identity step (lines 952-958). -/
def gitIdentityStep : Step :=
  { name := some "Set git identity"
    run := some "git config user.name \"Automation\"\ngit config user.email \"github-actions@github.com\"" }

/-- The anti-tamper verification step (lines 922-925). -/
def antitamperCheckStep : Step :=
  { name := some "Anti-tamper check"
    run := some "git diff --ignore-space-at-eol --exit-code" }

/-- Anti-tamper step list (lines 922-925): empty when disabled by the flag
or when the sitewide anti-tamper setting is off. -/
def antitamperSteps (ctx : BuildCtx) (opts : NodeBuildWorkflowOptions) : List Step :=
  if opts.antitamperDisabled.getD false || !ctx.antitamper then []
  else [antitamperCheckStep]

/-- Setup-node step of installWorkflowSteps (lines 754-760). -/
def setupNodeStep (v : String) : Step :=
  { name := some "Setup Node.js"
    uses := some "actions/setup-node@v1"
    stepWith := [("node-version", v)] }

/-- Install step of installWorkflowSteps (lines 762-765). -/
def installStep (cmd : String) : Step :=
  { name := some "Install dependencies", run := some cmd }

/-- installWorkflowSteps getter (lines 752-767). -/
def installWorkflowSteps (ctx : BuildCtx) : List Step :=
  (match ctx.nodeVersion with
    | some v => [setupNodeStep v]
    | none => []) ++ [installStep ctx.installCommand]

/-- Build step (lines 965-968). -/
def buildStep (ctx : BuildCtx) : Step :=
  { name := some "Build", run := some ctx.buildCommand }

/-- Token reference string for the codecov secret. -/
def tokenRef (s : String) : String := "$\x7b\x7b secrets." ++ s ++ " \x7d\x7d"

/-- Coverage upload step list (lines 972-981): present only when
(codeCov flag or a nonempty secret name) and the Jest collaborator reports
a configuration; parameterized with token and directory when a secret name
is given, otherwise only the directory. -/
def codecovSteps (ctx : BuildCtx) (opts : NodeBuildWorkflowOptions) : List Step :=
  match ctx.jestConfig with
  | some cfg =>
    if opts.codeCov.getD false || (opts.codeCovTokenSecret.getD "") != "" then
      [{ name := some "Upload coverage to Codecov"
         uses := some "codecov/codecov-action@v1"
         stepWith :=
           if (opts.codeCovTokenSecret.getD "") != "" then
             [("token", tokenRef (opts.codeCovTokenSecret.getD "")),
              ("directory", cfg.coverageDirectory)]
           else
             [("directory", cfg.coverageDirectory)] }]
    else []
  | none => []

/-- The job assembled by createBuildWorkflow (lines 927-993): environment
defaults CI=true overridable by caller entries, the fixed step order, and
a container image only when a nonempty image is supplied. -/
def mkJob (ctx : BuildCtx) (opts : NodeBuildWorkflowOptions) : Job :=
  { runsOn := "ubuntu-latest"
    env := ("CI", "true") :: opts.env.getD []
    permissions := opts.permissions
    condition := opts.condition
    steps :=
      opts.preCheckoutSteps.getD []
      ++ [checkoutStep opts]
      ++ installWorkflowSteps ctx
      ++ antitamperSteps ctx opts
      ++ [gitIdentityStep]
      ++ opts.preBuildSteps.getD []
      ++ [buildStep ctx]
      ++ codecovSteps ctx opts
      ++ opts.postSteps.getD []
      ++ antitamperSteps ctx opts
    container := if (opts.image.getD "") == "" then none else opts.image }

/-- The workflow document createBuildWorkflow registers on success:
caller triggers plus the always-added manual dispatch trigger, and the
single job under the given job id. -/
def mkWorkflow (ctx : BuildCtx) (name : String) (opts : NodeBuildWorkflowOptions) : Workflow :=
  { name := name
    triggers := opts.trigger.getD [] ++ ["workflow_dispatch"]
    jobs := [(opts.jobId, mkJob ctx opts)] }

/-- createBuildWorkflow (lines 896-998): fails without a GitHub
collaborator, rejects an issue_comment trigger category, otherwise emits
the workflow with the assembled job. -/
def createBuildWorkflow (ctx : BuildCtx) (name : String) (opts : NodeBuildWorkflowOptions) :
    Except String Workflow :=
  if !ctx.github then Except.error msgNoGithub
  else if "issue_comment" ∈ opts.trigger.getD [] then Except.error msgIssueComment
  else Except.ok (mkWorkflow ctx name opts)

/-- JS-object lookup on an association list built by object-literal
spreading: the last binding of a key wins. -/
def objGet (m : List (String × String)) (k : String) : Option String :=
  (m.reverse.find? (fun p => p.1 == k)).map (fun p => p.2)

/-- Provenance of a created UpgradeDependencies pipeline: created by the
bound upgrade mechanism (line 1110) or by the projen self-upgrade logic
(lines 648-661). -/
inductive PipelineSource where
  | mechanismBind
  | projenUpgrade
deriving DecidableEq

/-- Collaborator state registered by the NodeProject constructor, as far
as the verified claims observe it.  Ignore-file default content, npm
package-field mutations and the PATH task environment are not modelled
(no claim depends on them). -/
structure ProjectState where
  runScriptCommand : String := ""
  nodeVersion : Option String := none
  tasks : List String := []
  buildTaskCmds : List String := []
  licenseCreated : Bool := false
  npmignoreCreated : Bool := false
  gitignoreExtra : List String := []
  scripts : List (String × String) := []
  devDeps : List String := []
  antitamper : Bool := false
  jestConfig : Option JestConfig := none
  workflows : List (String × Workflow) := []
  buildWorkflowJobId : Option String := none
  releaseCreated : Bool := false
  releaseNpmPublished : Bool := false
  autoMergeLabel : Option String := none
  dependabotRegistered : Bool := false
  depsUpgradeBound : Option DependenciesUpgradeMechanism := none
  upgradePipelines : List (PipelineSource × UpgradeDependenciesOptions) := []
  pullRequestTemplateAdded : Bool := false
  projenrcCreated : Bool := false
deriving DecidableEq

/-- Version constant of the generator package (common module, outside this
slice; the concrete value is immaterial to every claim). -/
def PROJEN_VERSION : String := "0.0.0"

/-- Version.STANDARD_VERSION dev dependency (version module, outside this
slice; the concrete value is immaterial to every claim). -/
def STANDARD_VERSION : String := "standard-version@^9"

/-- runScriptCommand (lines 408-415). -/
def runScriptCommandOf (c : Collab) : String :=
  match c.packageManager with
  | .NPM => "npm run"
  | .YARN => "yarn run"
  | .PNPM => "pnpm run"

/-- runTaskCommand (lines 1008-1015). -/
def runTaskCommand (c : Collab) (runScriptCommand : String) (taskName : String) : String :=
  match c.npmTaskExecution with
  | .PROJEN => c.projenCommand ++ " " ++ taskName
  | .SHELL => runScriptCommand ++ " " ++ taskName

/-- this.nodeVersion (line 417). -/
def nodeVersionOf (o : NodeProjectOptions) (c : Collab) : Option String :=
  o.workflowNodeVersion <|> c.minNodeVersion

/-- buildWorkflow enabled flag (line 499 and 512): default true unless a
subproject. -/
def buildEnabled (o : NodeProjectOptions) : Bool :=
  o.buildWorkflow.getD (!o.parent)

/-- mutableBuild flag (line 500). -/
def mutableBuilds (o : NodeProjectOptions) : Bool :=
  o.mutableBuild.getD true

/-- Sitewide antitamper flag (line 504). -/
def antitamperOf (o : NodeProjectOptions) : Bool :=
  buildEnabled o && o.antitamper.getD true

/-- releaseWorkflow enabled flag (line 586). -/
def releaseEnabled (o : NodeProjectOptions) : Bool :=
  o.releaseWorkflow.getD (!o.parent)

/-- What `this.jest?.config` reports: the Jest collaborator is created
when the jest option defaults to true (lines 508-510). -/
def jestConfigOf (o : NodeProjectOptions) (c : Collab) : Option JestConfig :=
  if o.jest.getD true then c.jestConfig else none

/-- Condition of the npmignore validation throw (lines 471-474):
custom entries given but the .npmignore file was disabled. -/
def npmignoreConflict (o : NodeProjectOptions) : Bool :=
  (o.npmignore.getD []) != [] && !(o.npmignoreEnabled.getD true)

/-- Condition of the defaultReleaseBranch throw (lines 495-497), with JS
truthiness: undefined or the empty string are rejected. -/
def defaultReleaseBranchMissing (o : NodeProjectOptions) : Bool :=
  (o.defaultReleaseBranch.getD "") == ""

/-- Condition of the dependabot/depsUpgrade conflict throw (line 635):
`dependabot !== undefined && depsUpgrade`. -/
def dependabotConflict (o : NodeProjectOptions) : Bool :=
  o.dependabot.isSome && o.depsUpgrade.isSome

/-- State after lines 403-469: tasks registered, build task seeded,
license, .npmignore file, custom gitignore entries. -/
def stateA (o : NodeProjectOptions) (c : Collab) : ProjectState :=
  { runScriptCommand := runScriptCommandOf c
    nodeVersion := nodeVersionOf o c
    tasks := ["compile", "test:compile", "test", "build"]
    buildTaskCmds :=
      if o.projenDuringBuild.getD true && !o.parent then [c.projenCommand] else []
    licenseCreated := c.license.isSome
    npmignoreCreated := o.npmignoreEnabled.getD true
    gitignoreExtra := o.gitignore.getD [] }

/-- State after lines 482-493: projen/start scripts and the projen dev
dependency. -/
def stateC (o : NodeProjectOptions) (c : Collab) : ProjectState :=
  { stateA o c with
    scripts := [("projen", c.projenCommand), ("start", c.projenCommand ++ " start")]
    devDeps :=
      if o.projenDevDependency.getD true then
        ["projen@" ++ o.projenVersion.getD ("^" ++ PROJEN_VERSION)]
      else [] }

/-- State after lines 499-510: sitewide antitamper flag and the Jest
collaborator. -/
def stateE (o : NodeProjectOptions) (c : Collab) : ProjectState :=
  { stateC o c with
    antitamper := antitamperOf o
    jestConfig := jestConfigOf o c }

/-- Context handed to createBuildWorkflow by the constructor. -/
def buildCtxOf (o : NodeProjectOptions) (c : Collab) : BuildCtx :=
  { github := c.github
    antitamper := antitamperOf o
    nodeVersion := nodeVersionOf o c
    installCommand := c.installCommand
    buildCommand := runTaskCommand c (runScriptCommandOf c) "build"
    jestConfig := jestConfigOf o c }

/-- Head ref expression of the pull-request branch (line 513). -/
def branchExpr : String := "$\x7b\x7b github.event.pull_request.head.ref \x7d\x7d"

/-- Repository expression of the pull-request head (line 514). -/
def repoExpr : String := "$\x7b\x7b github.event.pull_request.head.repo.full_name \x7d\x7d"

/-- The updateRepo post steps (lines 517-558). -/
def updateRepoSteps : List Step :=
  [ { name := some "Check for changes"
      id := some "git_diff"
      run := some "git diff --exit-code || echo \"::set-output name=has_changes::true\"" },
    { stepIf := some "steps.git_diff.outputs.has_changes"
      name := some "Commit and push changes (if changed)"
      run := some ("git add . && git commit -m \"chore: self mutation\" && git push origin HEAD:" ++ branchExpr) },
    { stepIf := some "steps.git_diff.outputs.has_changes"
      name := some "Update status check (if changed)"
      run := some ("gh api -X POST /repos/" ++ repoExpr ++ "/check-runs -F name=\"build\" -F head_sha=\"$(git rev-parse HEAD)\" -F status=\"completed\" -F conclusion=\"success\"")
      env := [("GITHUB_TOKEN", "$\x7b\x7b secrets.GITHUB_TOKEN \x7d\x7d")] } ]

/-- The build-workflow options the constructor passes (lines 560-580). -/
def buildWorkflowOptions (o : NodeProjectOptions) : NodeBuildWorkflowOptions :=
  { jobId := "build"
    trigger := some ["pull_request"]
    permissions := [("checks", JobPermission.WRITE), ("contents", JobPermission.WRITE)]
    checkoutWith :=
      if mutableBuilds o then some [("ref", branchExpr), ("repository", repoExpr)]
      else none
    postSteps := some updateRepoSteps
    antitamperDisabled := some (mutableBuilds o)
    image := o.workflowContainerImage
    codeCov := some (o.codeCov.getD false)
    codeCovTokenSecret := o.codeCovTokenSecret }

/-- Build-workflow stage (lines 512-584): registers the Build workflow
when enabled, or propagates the createBuildWorkflow error. -/
def buildStage (o : NodeProjectOptions) (c : Collab) : Except String ProjectState :=
  if buildEnabled o then
    match createBuildWorkflow (buildCtxOf o c) "Build" (buildWorkflowOptions o) with
    | Except.error e => Except.error e
    | Except.ok wf =>
      Except.ok { stateE o c with
                  workflows := [("Build", wf)]
                  buildWorkflowJobId := some "build" }
  else Except.ok (stateE o c)

/-- Release stage (lines 586-625): creates the release collaborator when
enabled, otherwise validates that no release-specific option was set
(JS truthiness: a defined branch array is truthy even when empty,
an empty schedule string is falsy). -/
def releaseStage (o : NodeProjectOptions) (s : ProjectState) : ProjectState × Option String :=
  if releaseEnabled o then
    ({ s with
       devDeps := s.devDeps ++ [STANDARD_VERSION]
       releaseCreated := true
       releaseNpmPublished := o.releaseToNpm.getD false }, none)
  else if o.releaseToNpm.getD false then (s, some msgReleaseToNpm)
  else if o.releaseBranches.isSome then (s, some msgReleaseBranches)
  else if o.releaseEveryCommit.getD false then (s, some msgReleaseEveryCommit)
  else if (o.releaseSchedule.getD "") != "" then (s, some msgReleaseSchedule)
  else (s, none)

/-- Modelled from the spec: the AutoMerge collaborator (github module,
outside this slice) carries the auto-merge label, defaulting to
"auto-merge"; an empty string disables it.  Created when the GitHub
component with mergify is present (lines 627-633). -/
def autoMergeStage (o : NodeProjectOptions) (c : Collab) (s : ProjectState) : ProjectState :=
  if c.github && c.mergify then
    { s with autoMergeLabel := some (o.mergifyAutoMergeLabel.getD "auto-merge") }
  else s

/-- The default upgrade mechanism (lines 639-640). -/
def defaultDependenciesUpgrade (o : NodeProjectOptions) : DependenciesUpgradeMechanism :=
  if o.dependabot.getD false then DependenciesUpgradeMechanism.dependabot none
  else DependenciesUpgradeMechanism.githubWorkflow {}

/-- The mechanism actually bound (line 641). -/
def effectiveDepsUpgrade (o : NodeProjectOptions) : DependenciesUpgradeMechanism :=
  o.depsUpgrade.getD (defaultDependenciesUpgrade o)

/-- Bind stage (line 642 together with lines 1094-1112): dependabot
registers on the GitHub component when present, the custom workflow
creates an UpgradeDependencies pipeline, NONE does nothing. -/
def bindStage (o : NodeProjectOptions) (c : Collab) (s : ProjectState) : ProjectState :=
  let m := effectiveDepsUpgrade o
  let s1 :=
    match m with
    | DependenciesUpgradeMechanism.NONE => s
    | DependenciesUpgradeMechanism.dependabot _ =>
      if c.github then { s with dependabotRegistered := true } else s
    | DependenciesUpgradeMechanism.githubWorkflow g =>
      { s with upgradePipelines := s.upgradePipelines ++ [(PipelineSource.mechanismBind, g)] }
  { s1 with depsUpgradeBound := some m }

/-- The options of the projen self-upgrade pipeline (lines 648-661). -/
def projenUpgradeOptions (o : NodeProjectOptions) (autoMergeLabel : Option String) :
    UpgradeDependenciesOptions :=
  { includeDeps := some ["projen"]
    taskName := some "upgrade-projen"
    pullRequestTitle := some "upgrade projen"
    ignoreProjen := some false
    workflow := some ((o.projenUpgradeSecret.getD "") != "")
    workflowOptions := some
      { schedule := some (o.projenUpgradeSchedule.getD ["0 6 * * *"])
        secret := o.projenUpgradeSecret
        labels := some
          (match autoMergeLabel with
            | some l => if o.projenUpgradeAutoMerge.getD true && l != "" then [l] else []
            | none => []) } }

/-- Projen self-upgrade stage (lines 644-662): fires when the bound
mechanism ignores projen and this project is not projen itself. -/
def projenUpgradeStage (o : NodeProjectOptions) (c : Collab) (s : ProjectState) : ProjectState :=
  if (effectiveDepsUpgrade o).ignoresProjen && c.packageName != "projen" then
    { s with upgradePipelines :=
        s.upgradePipelines ++ [(PipelineSource.projenUpgrade, projenUpgradeOptions o s.autoMergeLabel)] }
  else s

/-- Final stage (lines 664-671): pull-request template and .projenrc.js. -/
def finalStage (o : NodeProjectOptions) (c : Collab) (s : ProjectState) : ProjectState :=
  { s with
    pullRequestTemplateAdded := c.github && o.pullRequestTemplate.getD true
    projenrcCreated := o.projenrcJs.getD true }

/-- The NodeProject constructor (lines 403-672) as a state trace: the
first component is the collaborator state accumulated when the
constructor returns or throws, the second the error message of the first
failing check, if any. -/
def constructNodeProject (o : NodeProjectOptions) (c : Collab) : ProjectState × Option String :=
  if npmignoreConflict o then (stateA o c, some msgNpmignore)
  else if defaultReleaseBranchMissing o then (stateC o c, some msgDefaultReleaseBranch)
  else
    match buildStage o c with
    | Except.error e => (stateE o c, some e)
    | Except.ok sb =>
      match releaseStage o sb with
      | (s2, some e) => (s2, some e)
      | (s2, none) =>
        let s3 := autoMergeStage o c s2
        if dependabotConflict o then (s3, some msgDependabotConflict)
        else (finalStage o c (projenUpgradeStage o c (bindStage o c s3)), none)

/-- The caller-visible view of the constructor: an error, or the fully
assembled project state. -/
def construct (o : NodeProjectOptions) (c : Collab) : Except String ProjectState :=
  match constructNodeProject o c with
  | (_, some e) => Except.error e
  | (s, none) => Except.ok s

/-! ### Helper lemmas -/

/-- find? distributes over append, first list first. -/
lemma find?_append (l₁ l₂ : List α) (p : α → Bool) :
    (l₁ ++ l₂).find? p = ((l₁.find? p).orElse (fun _ => l₂.find? p)) := by
  induction l₁ with
  | nil => simp [Option.orElse]
  | cons a l ih =>
    by_cases h : p a
    · simp [List.find?, h, Option.orElse]
    · simp only [List.cons_append, List.find?]
      rw [Bool.not_eq_true] at h
      simp [h, ih]

/-! ### Claims -/

/-- Claim C1: for every context and options set, the step sequence of the
job emitted by the build-workflow builder is exactly the concatenation, in
this order, of: pre-checkout steps, checkout, install, anti-tamper
(possibly empty), git-identity setup, pre-build steps, build, coverage
upload (possibly empty), post steps, and the anti-tamper list again. -/
theorem buildJobStepOrder (ctx : BuildCtx) (opts : NodeBuildWorkflowOptions) :
    (mkJob ctx opts).steps =
      opts.preCheckoutSteps.getD []
      ++ [checkoutStep opts]
      ++ installWorkflowSteps ctx
      ++ antitamperSteps ctx opts
      ++ [gitIdentityStep]
      ++ opts.preBuildSteps.getD []
      ++ [buildStep ctx]
      ++ codecovSteps ctx opts
      ++ opts.postSteps.getD []
      ++ antitamperSteps ctx opts := rfl

/-- Claim C2: the anti-tamper step list is empty exactly when the
anti-tamper-disabled flag is set or the sitewide anti-tamper setting is
off, and otherwise is the single verification step; the emitted job
splices that same list at both positions (after install and at the very
end), so anti-tamper steps appear zero times or twice, symmetrically. -/
theorem antitamperStepsSymmetric (ctx : BuildCtx) (opts : NodeBuildWorkflowOptions) :
    (antitamperSteps ctx opts = [] ↔
      (opts.antitamperDisabled.getD false = true ∨ ctx.antitamper = false))
    ∧ (antitamperSteps ctx opts = [] ∨ antitamperSteps ctx opts = [antitamperCheckStep])
    ∧ (mkJob ctx opts).steps =
        opts.preCheckoutSteps.getD []
        ++ [checkoutStep opts]
        ++ installWorkflowSteps ctx
        ++ antitamperSteps ctx opts
        ++ [gitIdentityStep]
        ++ opts.preBuildSteps.getD []
        ++ [buildStep ctx]
        ++ codecovSteps ctx opts
        ++ opts.postSteps.getD []
        ++ antitamperSteps ctx opts := by
  refine ⟨?_, ?_, rfl⟩ <;>
    cases hd : opts.antitamperDisabled.getD false <;>
      cases ha : ctx.antitamper <;>
        simp [antitamperSteps, hd, ha]

/-- Claim C3: whenever the trigger filter includes the issue_comment event
category, the build-workflow builder (given the GitHub collaborator, which
is checked first) fails with the issue_comment configuration error,
regardless of all other option fields. -/
theorem issueCommentTriggerRejected (ctx : BuildCtx) (name : String)
    (opts : NodeBuildWorkflowOptions)
    (hg : ctx.github = true)
    (ht : "issue_comment" ∈ opts.trigger.getD []) :
    createBuildWorkflow ctx name opts = Except.error msgIssueComment := by
  simp [createBuildWorkflow, hg, ht]

/-- Witness for C3 at a concrete input. -/
def ctxW : BuildCtx :=
  { github := true
    antitamper := true
    nodeVersion := none
    installCommand := "yarn install --frozen-lockfile"
    buildCommand := "yarn run build"
    jestConfig := none }

/-- Witness options for C3. -/
def triggerOptsW : NodeBuildWorkflowOptions :=
  { jobId := "build"
    trigger := some ["issue_comment"]
    permissions := [] }

/-- Claim C3 witness: the builder rejects a concrete issue_comment trigger. -/
theorem issueCommentTriggerRejectedW :
    createBuildWorkflow ctxW "Build" triggerOptsW = Except.error msgIssueComment :=
  issueCommentTriggerRejected ctxW "Build" triggerOptsW rfl (by decide)

/-- Claim C6: a coverage-upload step list is nonempty exactly when the
coverage flag is set or a (nonempty) coverage secret name is supplied, and
the test-configuration collaborator reports an active configuration; when
nonempty it is a single codecov step carrying token and directory when a
secret name is given and only the directory otherwise, and the emitted job
splices that list between the build step and the post steps. -/
theorem codecovStepCondition (ctx : BuildCtx) (opts : NodeBuildWorkflowOptions) :
    ((codecovSteps ctx opts ≠ []) ↔
      ((opts.codeCov.getD false = true ∨ (opts.codeCovTokenSecret.getD "") ≠ "")
        ∧ ctx.jestConfig.isSome = true))
    ∧ (codecovSteps ctx opts = []
        ∨ ∃ cfg, ctx.jestConfig = some cfg ∧ codecovSteps ctx opts =
          [{ name := some "Upload coverage to Codecov"
             uses := some "codecov/codecov-action@v1"
             stepWith :=
               if (opts.codeCovTokenSecret.getD "") != "" then
                 [("token", tokenRef (opts.codeCovTokenSecret.getD "")),
                  ("directory", cfg.coverageDirectory)]
               else
                 [("directory", cfg.coverageDirectory)] }])
    ∧ (mkJob ctx opts).steps =
        opts.preCheckoutSteps.getD []
        ++ [checkoutStep opts]
        ++ installWorkflowSteps ctx
        ++ antitamperSteps ctx opts
        ++ [gitIdentityStep]
        ++ opts.preBuildSteps.getD []
        ++ [buildStep ctx]
        ++ codecovSteps ctx opts
        ++ opts.postSteps.getD []
        ++ antitamperSteps ctx opts := by
  refine ⟨?_, ?_, rfl⟩ <;>
    cases hj : ctx.jestConfig <;>
      cases hc : opts.codeCov.getD false <;>
        by_cases hs : (opts.codeCovTokenSecret.getD "") = "" <;>
          simp [codecovSteps, hj, hc, hs]

/-- Claim C10: looking up CI in the emitted job's environment map yields
the caller-supplied value when the caller's environment map defines CI,
and the builder default "true" otherwise. -/
theorem buildJobCiEnv (ctx : BuildCtx) (opts : NodeBuildWorkflowOptions) :
    objGet (mkJob ctx opts).env "CI" =
      some ((objGet (opts.env.getD []) "CI").getD "true") := by
  show objGet (("CI", "true") :: opts.env.getD []) "CI" = _
  unfold objGet
  rw [List.reverse_cons, find?_append]
  cases hf : (opts.env.getD []).reverse.find? (fun p => p.1 == "CI") <;>
    simp [hf, Option.orElse, List.find?]

/-! ### Constructor-level helper lemmas -/

/-- The claim-level disjunction of release-specific options being set:
publish-to-registry true, a nonempty release-branch list, release every
commit, or a nonempty release schedule. -/
def anyReleaseOption (o : NodeProjectOptions) : Bool :=
  o.releaseToNpm.getD false
  || (o.releaseBranches.getD []) != []
  || o.releaseEveryCommit.getD false
  || (o.releaseSchedule.getD "") != ""

lemma buildStage_ok_fields (o : NodeProjectOptions) (c : Collab) (sb : ProjectState)
    (hb : buildStage o c = Except.ok sb) :
    sb.antitamper = antitamperOf o ∧ sb.autoMergeLabel = none
    ∧ sb.upgradePipelines = [] ∧ sb.depsUpgradeBound = none := by
  unfold buildStage at hb
  by_cases hben : buildEnabled o
  · simp only [hben, if_true] at hb
    cases hcw : createBuildWorkflow (buildCtxOf o c) "Build" (buildWorkflowOptions o) <;>
      rw [hcw] at hb
    · exact absurd hb (by simp)
    · obtain rfl : _ = sb := Except.ok.inj hb
      exact ⟨rfl, rfl, rfl, rfl⟩
  · simp only [hben, if_false, Bool.false_eq_true] at hb
    obtain rfl : _ = sb := Except.ok.inj hb
    exact ⟨rfl, rfl, rfl, rfl⟩

lemma buildStage_ok_of_github (o : NodeProjectOptions) (c : Collab) (hg : c.github = true) :
    ∃ sb, buildStage o c = Except.ok sb := by
  unfold buildStage createBuildWorkflow
  by_cases hben : buildEnabled o <;>
    simp [hben, buildCtxOf, buildWorkflowOptions, hg]

lemma releaseStage_fst_fields (o : NodeProjectOptions) (s : ProjectState) :
    (releaseStage o s).1.antitamper = s.antitamper
    ∧ (releaseStage o s).1.autoMergeLabel = s.autoMergeLabel
    ∧ (releaseStage o s).1.upgradePipelines = s.upgradePipelines
    ∧ (releaseStage o s).1.depsUpgradeBound = s.depsUpgradeBound := by
  unfold releaseStage
  repeat' split
  all_goals exact ⟨rfl, rfl, rfl, rfl⟩

lemma autoMergeStage_fields (o : NodeProjectOptions) (c : Collab) (s : ProjectState) :
    (autoMergeStage o c s).antitamper = s.antitamper
    ∧ (autoMergeStage o c s).upgradePipelines = s.upgradePipelines
    ∧ (autoMergeStage o c s).depsUpgradeBound = s.depsUpgradeBound := by
  unfold autoMergeStage
  split <;> exact ⟨rfl, rfl, rfl⟩

lemma bindStage_fields (o : NodeProjectOptions) (c : Collab) (s : ProjectState) :
    (bindStage o c s).antitamper = s.antitamper
    ∧ (bindStage o c s).autoMergeLabel = s.autoMergeLabel
    ∧ (bindStage o c s).depsUpgradeBound = some (effectiveDepsUpgrade o) := by
  cases hm : effectiveDepsUpgrade o with
  | NONE => simp [bindStage, hm]
  | dependabot ip => by_cases hg : c.github = true <;> simp [bindStage, hm, hg]
  | githubWorkflow g => simp [bindStage, hm]

lemma bindStage_upgradePipelines (o : NodeProjectOptions) (c : Collab) (s : ProjectState) :
    (bindStage o c s).upgradePipelines =
      s.upgradePipelines ++
        (match effectiveDepsUpgrade o with
          | DependenciesUpgradeMechanism.githubWorkflow g => [(PipelineSource.mechanismBind, g)]
          | _ => []) := by
  cases hm : effectiveDepsUpgrade o with
  | NONE => simp [bindStage, hm]
  | dependabot ip => by_cases hg : c.github = true <;> simp [bindStage, hm, hg]
  | githubWorkflow g => simp [bindStage, hm]

lemma projenUpgradeStage_fields (o : NodeProjectOptions) (c : Collab) (s : ProjectState) :
    (projenUpgradeStage o c s).antitamper = s.antitamper
    ∧ (projenUpgradeStage o c s).depsUpgradeBound = s.depsUpgradeBound := by
  unfold projenUpgradeStage
  split <;> exact ⟨rfl, rfl⟩

lemma finalStage_fields (o : NodeProjectOptions) (c : Collab) (s : ProjectState) :
    (finalStage o c s).antitamper = s.antitamper
    ∧ (finalStage o c s).upgradePipelines = s.upgradePipelines
    ∧ (finalStage o c s).depsUpgradeBound = s.depsUpgradeBound :=
  ⟨rfl, rfl, rfl⟩

/-- Shape of a successful construction: every check passed and the state
is the composition of the stages. -/
lemma construct_ok_shape (o : NodeProjectOptions) (c : Collab) (s : ProjectState)
    (h : construct o c = Except.ok s) :
    ∃ sb, buildStage o c = Except.ok sb
      ∧ (releaseStage o sb).2 = none
      ∧ npmignoreConflict o = false
      ∧ defaultReleaseBranchMissing o = false
      ∧ dependabotConflict o = false
      ∧ s = finalStage o c (projenUpgradeStage o c (bindStage o c
              (autoMergeStage o c (releaseStage o sb).1))) := by
  unfold construct constructNodeProject at h
  by_cases h1 : npmignoreConflict o = true
  · simp [h1] at h
  by_cases h2 : defaultReleaseBranchMissing o = true
  · simp [h1, h2] at h
  simp only [h1, h2, if_false, Bool.false_eq_true] at h
  cases hb : buildStage o c with
  | error e => rw [hb] at h; simp at h
  | ok sb =>
    rw [hb] at h
    dsimp only [] at h
    rcases hr : releaseStage o sb with ⟨s2, e2⟩
    rw [hr] at h
    cases e2 with
    | some e => simp at h
    | none =>
      dsimp only [] at h
      by_cases h3 : dependabotConflict o = true
      · simp [h3] at h
      · rw [if_neg h3] at h
        refine ⟨sb, rfl, by rw [hr], by simpa using h1, by simpa using h2,
          by simpa using h3, ?_⟩
        rw [hr]
        exact (Except.ok.inj h).symm

/-- Concrete collaborator set used by the witnesses. -/
def cDefault : Collab := { packageName := "my-app" }

/-- Default options with only the required release branch. -/
def oDefault : NodeProjectOptions := { defaultReleaseBranch := some "main" }

/-- Options with the release workflow disabled but releaseToNpm set. -/
def oNoRelease : NodeProjectOptions :=
  { defaultReleaseBranch := some "main"
    releaseWorkflow := some false
    releaseToNpm := some true }

/-- Options setting both the deprecated dependabot flag and an explicit
custom-workflow upgrade mechanism. -/
def oBothMech : NodeProjectOptions :=
  { defaultReleaseBranch := some "main"
    dependabot := some true
    depsUpgrade := some (DependenciesUpgradeMechanism.githubWorkflow {}) }

/-- Claim C9: the sitewide antitamper flag of a successfully assembled
project is false whenever the build workflow is disabled, and equals the
caller's antitamper option defaulted to true when it is enabled. -/
theorem antitamperRequiresBuildWorkflow (o : NodeProjectOptions) (c : Collab)
    (s : ProjectState) (h : construct o c = Except.ok s) :
    (buildEnabled o = false → s.antitamper = false)
    ∧ (buildEnabled o = true → s.antitamper = o.antitamper.getD true) := by
  obtain ⟨sb, hb, -, -, -, -, hs⟩ := construct_ok_shape o c s h
  have hfin : s.antitamper = antitamperOf o := by
    rw [hs, (finalStage_fields o c _).1, (projenUpgradeStage_fields o c _).1,
      (bindStage_fields o c _).1, (autoMergeStage_fields o c _).1,
      (releaseStage_fst_fields o _).1, (buildStage_ok_fields o c sb hb).1]
  constructor <;> intro hbe <;> simp [hfin, antitamperOf, hbe]

/-- Claim C9 witness at the default options. -/
theorem antitamperRequiresBuildWorkflowW :
    ((constructNodeProject oDefault cDefault).1).antitamper = true := by
  have h := antitamperRequiresBuildWorkflow oDefault cDefault
    ((constructNodeProject oDefault cDefault).1) (by rfl)
  exact (h.2 (by decide)).trans rfl

/-- Claim C5: setting both the bot-driven flag and an explicit
custom-workflow upgrade mechanism makes assembly fail; setting neither
binds the default custom github-workflow mechanism. -/
theorem depsUpgradeExclusive (o : NodeProjectOptions) (c : Collab) :
    ((o.dependabot = some true
        ∧ ∃ g, o.depsUpgrade = some (DependenciesUpgradeMechanism.githubWorkflow g))
      → ∃ e, construct o c = Except.error e)
    ∧ ((o.dependabot = none ∧ o.depsUpgrade = none)
      → ∀ s, construct o c = Except.ok s →
          s.depsUpgradeBound = some (DependenciesUpgradeMechanism.githubWorkflow {})) := by
  constructor
  · rintro ⟨hd, g, hu⟩
    by_cases h1 : npmignoreConflict o = true
    · exact ⟨msgNpmignore, by simp [construct, constructNodeProject, h1]⟩
    by_cases h2 : defaultReleaseBranchMissing o = true
    · exact ⟨msgDefaultReleaseBranch, by simp [construct, constructNodeProject, h1, h2]⟩
    cases hb : buildStage o c with
    | error e => exact ⟨e, by simp [construct, constructNodeProject, h1, h2, hb]⟩
    | ok sb =>
      rcases hr : releaseStage o sb with ⟨s2, e2⟩
      cases e2 with
      | some e => exact ⟨e, by simp [construct, constructNodeProject, h1, h2, hb, hr]⟩
      | none =>
        have h3 : dependabotConflict o = true := by
          simp [dependabotConflict, hd, hu]
        exact ⟨msgDependabotConflict,
          by simp [construct, constructNodeProject, h1, h2, hb, hr, h3]⟩
  · rintro ⟨hd, hu⟩ s h
    obtain ⟨sb, hb, -, -, -, -, hs⟩ := construct_ok_shape o c s h
    rw [hs, (finalStage_fields o c _).2.2, (projenUpgradeStage_fields o c _).2,
      (bindStage_fields o c _).2.2]
    simp [effectiveDepsUpgrade, defaultDependenciesUpgrade, hd, hu]

/-- Claim C5 witness: a concrete options set with both mechanisms makes
assembly fail. -/
theorem depsUpgradeExclusiveW : ∃ e, construct oBothMech cDefault = Except.error e :=
  (depsUpgradeExclusive oBothMech cDefault).1 ⟨rfl, ⟨{}, rfl⟩⟩

lemma releaseStage_err_of_opt (o : NodeProjectOptions) (s : ProjectState)
    (hre : releaseEnabled o = false) (hany : anyReleaseOption o = true) :
    ∃ e, (releaseStage o s).2 = some e := by
  unfold releaseStage
  rw [if_neg (by simp [hre])]
  by_cases c1 : o.releaseToNpm.getD false = true
  · exact ⟨msgReleaseToNpm, by simp [c1]⟩
  by_cases c2 : o.releaseBranches.isSome = true
  · exact ⟨msgReleaseBranches, by simp [c1, c2]⟩
  by_cases c3 : o.releaseEveryCommit.getD false = true
  · exact ⟨msgReleaseEveryCommit, by simp [c1, c2, c3]⟩
  by_cases c4 : ((o.releaseSchedule.getD "") != "") = true
  · exact ⟨msgReleaseSchedule, by simp [c1, c2, c3, c4]⟩
  · exfalso
    rw [Option.not_isSome_iff_eq_none] at c2
    simp [anyReleaseOption, c1, c2, c3, c4] at hany

/-- Claim C4: with the release workflow disabled, assembly fails whenever
any of releaseToNpm, a nonempty releaseBranches list, releaseEveryCommit
or a nonempty releaseSchedule is set; with the release workflow enabled,
none of the four release-option errors can be raised. -/
theorem releaseOptionsValidation (o : NodeProjectOptions) (c : Collab)
    (hg : c.github = true) :
    ((releaseEnabled o = false ∧ anyReleaseOption o = true)
      → ∃ e, construct o c = Except.error e)
    ∧ (releaseEnabled o = true
      → ∀ e, construct o c = Except.error e →
          e ≠ msgReleaseToNpm ∧ e ≠ msgReleaseBranches
          ∧ e ≠ msgReleaseEveryCommit ∧ e ≠ msgReleaseSchedule) := by
  constructor
  · rintro ⟨hre, hany⟩
    by_cases h1 : npmignoreConflict o = true
    · exact ⟨msgNpmignore, by simp [construct, constructNodeProject, h1]⟩
    by_cases h2 : defaultReleaseBranchMissing o = true
    · exact ⟨msgDefaultReleaseBranch, by simp [construct, constructNodeProject, h1, h2]⟩
    cases hb : buildStage o c with
    | error e => exact ⟨e, by simp [construct, constructNodeProject, h1, h2, hb]⟩
    | ok sb =>
      obtain ⟨e, he⟩ := releaseStage_err_of_opt o sb hre hany
      rcases hr : releaseStage o sb with ⟨s2, e2⟩
      rw [hr] at he
      cases e2 with
      | none => simp at he
      | some e3 =>
        exact ⟨e3, by simp [construct, constructNodeProject, h1, h2, hb, hr]⟩
  · intro hre e he
    by_cases h1 : npmignoreConflict o = true
    · have : e = msgNpmignore := by
        simp [construct, constructNodeProject, h1] at he
        exact he.symm
      subst this
      refine ⟨by decide, by decide, by decide, by decide⟩
    by_cases h2 : defaultReleaseBranchMissing o = true
    · have : e = msgDefaultReleaseBranch := by
        simp [construct, constructNodeProject, h1, h2] at he
        exact he.symm
      subst this
      refine ⟨by decide, by decide, by decide, by decide⟩
    obtain ⟨sb, hb⟩ := buildStage_ok_of_github o c hg
    have hrel : releaseStage o sb =
        ({ sb with
           devDeps := sb.devDeps ++ [STANDARD_VERSION]
           releaseCreated := true
           releaseNpmPublished := o.releaseToNpm.getD false }, none) := by
      unfold releaseStage
      rw [if_pos (by simp [hre])]
    by_cases h3 : dependabotConflict o = true
    · have : e = msgDependabotConflict := by
        simp [construct, constructNodeProject, h1, h2, hb, hrel, h3] at he
        exact he.symm
      subst this
      refine ⟨by decide, by decide, by decide, by decide⟩
    · exfalso
      simp [construct, constructNodeProject, h1, h2, hb, hrel, h3] at he

/-- Claim C4 witness: with releaseWorkflow disabled and releaseToNpm set,
assembly fails on a concrete input. -/
theorem releaseOptionsValidationW : ∃ e, construct oNoRelease cDefault = Except.error e :=
  (releaseOptionsValidation oNoRelease cDefault rfl).1 (by decide)

/-- Claim C8: on a successful assembly whose bound upgrade mechanism
ignores projen and whose package is not projen itself, exactly one
secondary upgrade pipeline is created; it includes only the projen
dependency, uses the caller schedule or the daily 06:00 default, is gated
on a nonempty upgrade secret, and carries the auto-merge label exactly
when auto-merge is available and enabled. -/
theorem projenUpgradePipelineCreated (o : NodeProjectOptions) (c : Collab)
    (s : ProjectState) (h : construct o c = Except.ok s)
    (hip : (effectiveDepsUpgrade o).ignoresProjen = true)
    (hpn : c.packageName ≠ "projen") :
    s.upgradePipelines.filter (fun p => p.1 == PipelineSource.projenUpgrade) =
      [(PipelineSource.projenUpgrade,
        { includeDeps := some ["projen"]
          taskName := some "upgrade-projen"
          pullRequestTitle := some "upgrade projen"
          ignoreProjen := some false
          workflow := some ((o.projenUpgradeSecret.getD "") != "")
          workflowOptions := some
            { schedule := some (o.projenUpgradeSchedule.getD ["0 6 * * *"])
              secret := o.projenUpgradeSecret
              labels := some
                (if o.projenUpgradeAutoMerge.getD true && (c.github && c.mergify)
                    && ((o.mergifyAutoMergeLabel.getD "auto-merge") != "") then
                  [o.mergifyAutoMergeLabel.getD "auto-merge"]
                else []) } })] := by
  obtain ⟨sb, hb, -, -, -, -, hs⟩ := construct_ok_shape o c s h
  obtain ⟨-, hl0, hp0, -⟩ := buildStage_ok_fields o c sb hb
  have hl2 : (releaseStage o sb).1.autoMergeLabel = none :=
    (releaseStage_fst_fields o sb).2.1.trans hl0
  have hp2 : (releaseStage o sb).1.upgradePipelines = [] :=
    (releaseStage_fst_fields o sb).2.2.1.trans hp0
  have hl3 : (autoMergeStage o c (releaseStage o sb).1).autoMergeLabel =
      (if c.github && c.mergify then some (o.mergifyAutoMergeLabel.getD "auto-merge")
        else none) := by
    by_cases hgm : (c.github && c.mergify) = true <;>
      simp [autoMergeStage, hgm, hl2]
  have hp3 : (autoMergeStage o c (releaseStage o sb).1).upgradePipelines = [] :=
    (autoMergeStage_fields o c _).2.1.trans hp2
  have hl4 := (bindStage_fields o c (autoMergeStage o c (releaseStage o sb).1)).2.1
  have hp4 := bindStage_upgradePipelines o c (autoMergeStage o c (releaseStage o sb).1)
  rw [hs, (finalStage_fields o c _).2.1]
  unfold projenUpgradeStage
  rw [if_pos (by simp [hip, hpn])]
  simp only [hp4, hp3, hl4, hl3, List.nil_append]
  cases hm : effectiveDepsUpgrade o <;>
    by_cases hgm : (c.github && c.mergify) = true <;>
      by_cases hpa : o.projenUpgradeAutoMerge.getD true = true <;>
        simp [hgm, hpa, projenUpgradeOptions, List.filter] <;> rfl

/-- Claim C8 witness: at the default options the single secondary
pipeline has the default schedule, no secret gating and the auto-merge
label. -/
theorem projenUpgradePipelineCreatedW :
    ((constructNodeProject oDefault cDefault).1).upgradePipelines.filter
        (fun p => p.1 == PipelineSource.projenUpgrade) =
      [(PipelineSource.projenUpgrade,
        { includeDeps := some ["projen"]
          taskName := some "upgrade-projen"
          pullRequestTitle := some "upgrade projen"
          ignoreProjen := some false
          workflow := some false
          workflowOptions := some
            { schedule := some ["0 6 * * *"]
              secret := none
              labels := some ["auto-merge"] } })] :=
  projenUpgradePipelineCreated oDefault cDefault
    ((constructNodeProject oDefault cDefault).1) (by rfl) (by decide) (by decide)

/-- Counterexample to claim C7: on a concrete options set the assembly
fails (releaseToNpm with the release workflow disabled), yet tasks, the
build workflow and dev dependencies were already registered on the
collaborators when the error surfaced. -/
theorem constructionNotAtomicCex :
    (constructNodeProject oNoRelease cDefault).2 = some msgReleaseToNpm
    ∧ (constructNodeProject oNoRelease cDefault).1.tasks ≠ []
    ∧ (constructNodeProject oNoRelease cDefault).1.workflows ≠ []
    ∧ (constructNodeProject oNoRelease cDefault).1.devDeps ≠ [] :=
  ⟨by decide, by decide, by decide, by decide⟩

/-- Claim C7 as amended: a failed assembly surfaces the first failing
check's error to the caller and yields no project state (the
caller-visible result is either an error or the fully assembled state);
collaborator registrations made before the failing check are not rolled
back. -/
theorem failFastCallerView (o : NodeProjectOptions) (c : Collab) :
    (∃ e, (constructNodeProject o c).2 = some e ∧ construct o c = Except.error e)
    ∨ ((constructNodeProject o c).2 = none
        ∧ construct o c = Except.ok (constructNodeProject o c).1) := by
  unfold construct
  rcases hp : constructNodeProject o c with ⟨s, e⟩
  cases e with
  | none => right; simp [hp]
  | some e0 => left; exact ⟨e0, by simp [hp], by simp [hp]⟩

end Projen
